import Mathlib

/-!
Shallow embedding of the hopin-backend search and analytics subsystem
(src/backend/utils/geospatial.py, search_engine.py, analytics.py and the
advanced-search route in src/backend/routes/riders.py), together with
theorems settling the specification claims about it.

Modelling conventions:
* Python floats and Decimals stored in rows are modelled as exact rationals
  where only ordered-field arithmetic occurs, and as reals where the code
  applies transcendental functions (sin, cos, arcsin, sqrt, log10).
* A value `float('inf')` is modelled by the top element of `EReal`.
* Optional / nullable values are `Option`; Python truthiness of an optional
  number (`if x:` is false for both `None` and `0`) is the predicate
  `pyTruthy`.
* Timestamps are rationals measured in days; `timedelta.days` becomes an
  integer floor of a difference of timestamps.
-/

namespace Hopin

/-- Python truthiness of an optional numeric value: `None` and `0` are
falsy, every other number is truthy. -/
def pyTruthy {α : Type} [Zero α] (o : Option α) : Prop :=
  o.getD 0 ≠ 0

instance {α : Type} [Zero α] [DecidableEq α] (o : Option α) :
    Decidable (pyTruthy o) := by
  unfold pyTruthy; infer_instance

/-- Coercion of an optional rational (a stored coordinate) into the optional
real handed to the geospatial code. -/
def ratOpt (o : Option ℚ) : Option ℝ :=
  o.map (fun q => (q : ℝ))

/-- Degrees-to-radians conversion used by `math.radians`. -/
noncomputable def toRadians (x : ℝ) : ℝ :=
  x * (Real.pi / 180)

/-- Core of the haversine formula from geospatial.py (the all-coordinates-
present-and-nonzero branch): great-circle distance in kilometres between
two points given in decimal degrees. -/
noncomputable def haversineCore (lat1 lon1 lat2 lon2 : ℝ) : ℝ :=
  2 * Real.arcsin (Real.sqrt
      (Real.sin ((toRadians lat2 - toRadians lat1) / 2) ^ 2 +
        Real.cos (toRadians lat1) * Real.cos (toRadians lat2) *
          Real.sin ((toRadians lon2 - toRadians lon1) / 2) ^ 2)) * 6371

/-- Embedding of geospatial.haversine_distance: if any of the four
coordinates is missing or zero (Python falsy) the function returns
`float('inf')`, modelled as the top element of `EReal`; otherwise it returns
the haversine great-circle distance. -/
noncomputable def haversine_distance (lat1 lon1 lat2 lon2 : Option ℝ) : EReal :=
  open Classical in
  if pyTruthy lat1 ∧ pyTruthy lon1 ∧ pyTruthy lat2 ∧ pyTruthy lon2 then
    ((haversineCore (lat1.getD 0) (lon1.getD 0) (lat2.getD 0) (lon2.getD 0) : ℝ) : EReal)
  else ⊤

/-- Distance sub-score of search_engine.calculate_ride_relevance, line 31:
the float expression max(0, 100 - (distance * 2)), extended to the
infinite-distance case where Python evaluates max(0, -inf) = 0. -/
noncomputable def distance_score (d : EReal) : ℝ :=
  if d = ⊤ then 0 else max 0 (100 - d.toReal * 2)

/-- Scoring weights read from the search parameters, defaulting to the
dictionary literal in search_engine.calculate_ride_relevance. -/
structure Weights where
  popularity : ℚ
  distance : ℚ
  driver_rating : ℚ
  price : ℚ
  recency : ℚ
deriving DecidableEq

/-- Default weight dictionary of search_engine.calculate_ride_relevance. -/
def defaultWeights : Weights :=
  { popularity := 3/10, distance := 1/4, driver_rating := 1/5,
    price := 3/20, recency := 1/10 }

/-- Driver profile fields consumed by the search engine. A missing stored
rating is modelled as the rating 0, which the scorer and ranker treat the
same way. -/
structure DriverProfile where
  driver_rating : ℚ
  total_rides : ℕ
deriving DecidableEq

/-- Ride fields consumed by the search engine and the advanced-search
route. Timestamps are rationals in days. -/
structure Ride where
  start_lat : Option ℚ
  start_lng : Option ℚ
  price_per_seat : ℚ
  departure_time : ℚ
  popularity_score : ℚ
  driver_profile : Option DriverProfile
deriving DecidableEq

/-- Search parameters of the advanced-search route that reach the scorer,
the ranker and the distance post-filter. -/
structure SearchParams where
  from_location : String
  to_location : String
  from_lat : Option ℚ
  from_lng : Option ℚ
  to_lat : Option ℚ
  to_lng : Option ℚ
  max_distance : Option ℚ
  max_price : Option ℚ
  weights : Weights
deriving DecidableEq

/-- A scored candidate, the dictionary built per ride in
riders.advanced_search_rides lines 159-175. -/
structure Candidate where
  ride : Ride
  relevance_score : ℚ
  distance : Option ℚ
deriving DecidableEq

/-- Popularity sub-score contribution of calculate_ride_relevance lines
20-22: min(popularity/100, 1.0) * 100, multiplied by the popularity
weight. -/
def popularity_component (popularityScore wPopularity : ℚ) : ℚ :=
  min (popularityScore / 100) 1 * 100 * wPopularity

/-- Popularity contribution as the specification words it: the stored
popularity value clamped to the interval 0..100, times the weight. -/
def popularity_component_spec (popularityScore wPopularity : ℚ) : ℚ :=
  max 0 (min popularityScore 100) * wPopularity

/-- Distance sub-score contribution of calculate_ride_relevance lines
24-32, guarded by truthiness of the origin coordinates. -/
noncomputable def distance_component (p : SearchParams) (ride : Ride) : ℝ :=
  if pyTruthy p.from_lat ∧ pyTruthy p.from_lng then
    distance_score (haversine_distance (ratOpt p.from_lat) (ratOpt p.from_lng)
        (ratOpt ride.start_lat) (ratOpt ride.start_lng)) * (p.weights.distance : ℝ)
  else 0

/-- Driver-rating sub-score contribution of calculate_ride_relevance lines
34-38, guarded by truthiness of the profile and of its rating. -/
def rating_component (profile : Option DriverProfile) (wRating : ℚ) : ℚ :=
  match profile with
  | some dp =>
      if dp.driver_rating ≠ 0 then
        (dp.driver_rating / 5 * 100 + min ((dp.total_rides : ℚ) * 2) 20) * wRating
      else 0
  | none => 0

/-- Price sub-score contribution of calculate_ride_relevance lines 40-44,
guarded by truthiness of the max-price parameter. -/
def price_component (pricePerSeat : ℚ) (maxPrice : Option ℚ) (wPrice : ℚ) : ℚ :=
  if pyTruthy maxPrice then
    max 0 (100 - pricePerSeat / maxPrice.getD 0 * 50) * wPrice
  else 0

/-- Recency sub-score contribution of calculate_ride_relevance lines 46-53,
for future departures only; hours until departure are computed from
timestamps measured in days. -/
def recency_component (now departureTime wRecency : ℚ) : ℚ :=
  if now < departureTime then
    (fun hoursUntil =>
      max 0 (if hoursUntil ≤ 24 then 100 - hoursUntil * 2
             else max 0 (50 - (hoursUntil - 24) / 24 * 10)) * wRecency)
      ((departureTime - now) * 24)
  else 0

/-- Python round(x, 2): rounding to two decimal places, modelled with the
round-to-nearest integer function. -/
noncomputable def round2 (x : ℝ) : ℝ :=
  ((round (x * 100) : ℤ) : ℝ) / 100

/-- Embedding of search_engine.calculate_ride_relevance: the weighted sum
of the five sub-scores, rounded to two decimals. -/
noncomputable def calculate_ride_relevance (now : ℚ) (ride : Ride) (p : SearchParams) : ℝ :=
  round2 ((popularity_component ride.popularity_score p.weights.popularity : ℝ)
    + distance_component p ride
    + (rating_component ride.driver_profile p.weights.driver_rating : ℝ)
    + (price_component ride.price_per_seat p.max_price p.weights.price : ℝ)
    + (recency_component now ride.departure_time p.weights.recency : ℝ))

/-- Sort key of the driver_rating strategy in
search_engine.sort_rides_by_criteria line 74: the profile rating, or 0 when
the ride has no driver profile. -/
def driver_rating_key (c : Candidate) : ℚ :=
  match c.ride.driver_profile with
  | some dp => dp.driver_rating
  | none => 0

/-- Python truthiness of the pair search_params and
search_params.get(from_lat) in sort_rides_by_criteria line 64: the
parameters object is present and its origin latitude is truthy. -/
def hasOriginLat : Option SearchParams → Prop
  | some p => pyTruthy p.from_lat
  | none => False

instance : (sp : Option SearchParams) → Decidable (hasOriginLat sp)
  | some p => inferInstanceAs (Decidable (pyTruthy p.from_lat))
  | none => isFalse (fun h => h)

/-- Embedding of search_engine.sort_rides_by_criteria: each strategy is a
stable merge sort by its key (Python sorted is a stable sort; reverse=True
descends by comparing keys in flipped order while still preserving the
original order of equal keys); unknown strategies fall back to relevance.
The distance branch can raise: the candidate dictionaries built in
riders.advanced_search_rides always carry the distance key, initialized to
None, so the inf default of x.get(distance, inf) is dead and the key
function yields None for candidates without a computed distance. Python
sorted compares every adjacent pair of keys while detecting runs, and any
comparison involving None raises TypeError; with at most one candidate no
comparison happens. The error outcome models that raise; in the remaining
ok cases every distance is present and the keys are its numeric values. -/
def sort_rides_by_criteria (ridesWithScores : List Candidate) (sortBy : String)
    (searchParams : Option SearchParams) : Except Unit (List Candidate) :=
  if sortBy = "relevance" then
    Except.ok (ridesWithScores.mergeSort (fun a b => decide (b.relevance_score ≤ a.relevance_score)))
  else if sortBy = "distance" ∧ hasOriginLat searchParams then
    if 2 ≤ ridesWithScores.length ∧ ∃ c ∈ ridesWithScores, c.distance = none then
      Except.error ()
    else
      Except.ok (ridesWithScores.mergeSort
        (fun a b => decide (a.distance.getD 0 ≤ b.distance.getD 0)))
  else if sortBy = "price" then
    Except.ok (ridesWithScores.mergeSort (fun a b => decide (a.ride.price_per_seat ≤ b.ride.price_per_seat)))
  else if sortBy = "departure_time" then
    Except.ok (ridesWithScores.mergeSort (fun a b => decide (a.ride.departure_time ≤ b.ride.departure_time)))
  else if sortBy = "popularity" then
    Except.ok (ridesWithScores.mergeSort (fun a b => decide (b.ride.popularity_score ≤ a.ride.popularity_score)))
  else if sortBy = "driver_rating" then
    Except.ok (ridesWithScores.mergeSort (fun a b => decide (driver_rating_key b ≤ driver_rating_key a)))
  else
    Except.ok (ridesWithScores.mergeSort (fun a b => decide (b.relevance_score ≤ a.relevance_score)))

/-- Key actually used by the branch of sort_rides_by_criteria that the
given strategy selects, with every numeric key embedded into the common
type of rationals extended with infinity. In the distance branch the key is
the candidate's computed distance; the 0 default is never compared, since
the branch only returns a sort when every distance is present or the list
has at most one element. -/
def ride_sort_key (sortBy : String) (searchParams : Option SearchParams)
    (c : Candidate) : WithTop ℚ :=
  if sortBy = "relevance" then (c.relevance_score : WithTop ℚ)
  else if sortBy = "distance" ∧ hasOriginLat searchParams then (c.distance.getD 0 : WithTop ℚ)
  else if sortBy = "price" then (c.ride.price_per_seat : WithTop ℚ)
  else if sortBy = "departure_time" then (c.ride.departure_time : WithTop ℚ)
  else if sortBy = "popularity" then (c.ride.popularity_score : WithTop ℚ)
  else if sortBy = "driver_rating" then (driver_rating_key c : WithTop ℚ)
  else (c.relevance_score : WithTop ℚ)

/-- Ride value with no coordinates, used to instantiate concrete
candidates. -/
def rideZero : Ride :=
  { start_lat := none, start_lng := none, price_per_seat := 10,
    departure_time := 0, popularity_score := 0, driver_profile := none }

/-- Concrete scored candidate whose distance entry is still None, as built
by the advanced-search route when the origin longitude is falsy. -/
def cNone : Candidate :=
  { ride := rideZero, relevance_score := 0, distance := none }

/-- Concrete search parameters with a truthy origin latitude but a falsy
origin longitude: the distance sort branch is taken, yet no candidate
distance is ever computed. -/
def pD : SearchParams :=
  { from_location := "A", to_location := "B", from_lat := some 1, from_lng := none,
    to_lat := none, to_lng := none, max_distance := none, max_price := none,
    weights := defaultWeights }

/-- Search-volume component of analytics.calculate_route_popularity_score
line 82: logarithmic in the search count, capped at 60. -/
noncomputable def search_volume_component (searchCount : ℕ) : ℝ :=
  min (Real.logb 10 ((searchCount : ℝ) + 1) * 20) 60

/-- Ride-count component of analytics.calculate_route_popularity_score line
86: five points per ride, capped at 30. -/
noncomputable def ride_count_component (rideCount : ℕ) : ℝ :=
  min ((rideCount : ℝ) * 5) 30

/-- Recency component of analytics.calculate_route_popularity_score lines
90-94: nothing when the route has no update timestamp; otherwise, for
days-since-update at most 7, the bonus max(0, 10 - days * 1.4); nothing
beyond 7 days. -/
noncomputable def route_recency_component (daysSinceUpdate : Option ℤ) : ℝ :=
  match daysSinceUpdate with
  | none => 0
  | some d => if d ≤ 7 then max 0 (10 - (d : ℝ) * 1.4) else 0

/-- Embedding of analytics.calculate_route_popularity_score as a function
of the fields it reads: search count, ride count, and the integer number of
days since the last update (none when updated_at is null). -/
noncomputable def calculate_route_popularity_score (searchCount rideCount : ℕ)
    (daysSinceUpdate : Option ℤ) : ℝ :=
  round2 (search_volume_component searchCount + ride_count_component rideCount +
    route_recency_component daysSinceUpdate)

/-- Row of the search_history table (models.SearchHistory) with the fields
the analytics module touches. -/
structure SearchHistoryRow where
  user_id : String
  from_location : String
  to_location : String
  from_lat : Option ℚ
  from_lng : Option ℚ
  to_lat : Option ℚ
  to_lng : Option ℚ
  search_count : ℕ
  results_count : ℕ
  last_searched : Option ℚ
  created_at : Option ℚ

/-- Row of the popular_routes table (models.PopularRoute) with the fields
the analytics module touches. -/
structure PopularRouteRow where
  from_location : String
  to_location : String
  from_lat : Option ℚ
  from_lng : Option ℚ
  to_lat : Option ℚ
  to_lng : Option ℚ
  search_count : ℕ
  ride_count : ℕ
  avg_price : Option ℚ
  popularity_score : ℝ
  created_at : Option ℚ
  updated_at : Option ℚ

/-- Committed analytics tables touched by analytics.log_search_analytics. -/
structure AnalyticsState where
  histories : List SearchHistoryRow
  routes : List PopularRouteRow

/-- In-place mutation of the first row matched by a query, as SQLAlchemy
applies attribute assignments to the row object returned by first(). -/
def updateFirst {α : Type} (p : α → Bool) (f : α → α) : List α → List α
  | [] => []
  | x :: xs => if p x then f x :: xs else x :: updateFirst p f xs

/-- Filter of PopularRoute.query.filter_by(from_location=..., to_location=...). -/
def routeMatches (fromLoc toLoc : String) (r : PopularRouteRow) : Bool :=
  decide (r.from_location = fromLoc ∧ r.to_location = toLoc)

/-- Filter of SearchHistory.query.filter_by(user_id=..., from_location=...,
to_location=...). -/
def historyMatches (userId fromLoc toLoc : String) (h : SearchHistoryRow) : Bool :=
  decide (h.user_id = userId ∧ h.from_location = fromLoc ∧ h.to_location = toLoc)

/-- Python (a - b).days for timestamps measured in days: the floor of the
difference. -/
def daysBetween (a b : ℚ) : ℤ :=
  ⌊a - b⌋

/-- Field updates applied to the matched PopularRoute row by
update_route_ride_stats lines 176-187: increment the ride count, rebuild
the running average price from the already-incremented count (or start it
at the posted price when no truthy average exists), refresh the update
timestamp and recompute the popularity score. -/
noncomputable def applyRideStats (pricePerSeat now : ℚ) (r : PopularRouteRow) :
    PopularRouteRow :=
  { r with
      ride_count := r.ride_count + 1,
      avg_price := some (if pyTruthy r.avg_price then
          (r.avg_price.getD 0 * ((r.ride_count : ℚ) + 1 - 1) + pricePerSeat) /
            ((r.ride_count : ℚ) + 1)
        else pricePerSeat),
      updated_at := some now,
      popularity_score := calculate_route_popularity_score r.search_count
        (r.ride_count + 1) (some (daysBetween now now)) }

/-- Embedding of analytics.update_route_ride_stats. If a PopularRoute row
matches the route, the matched row is updated through applyRideStats and
the function returns True. When no row matches, the function falls through
the if: it returns None and changes nothing — in particular it creates no
row. -/
noncomputable def update_route_ride_stats (routes : List PopularRouteRow)
    (fromLoc toLoc : String) (pricePerSeat : ℚ) (now : ℚ) :
    Option Bool × List PopularRouteRow :=
  match routes.find? (routeMatches fromLoc toLoc) with
  | some _ =>
      (some true,
        updateFirst (routeMatches fromLoc toLoc) (applyRideStats pricePerSeat now) routes)
  | none => (none, routes)

/-- Upsert of the SearchHistory row in analytics.log_search_analytics lines
18-41: increment and refresh a matching row, or insert a fresh one. -/
def upsert_search_history (now : ℚ) (histories : List SearchHistoryRow)
    (userId : String) (p : SearchParams) (resultsCount : ℕ) : List SearchHistoryRow :=
  match histories.find? (historyMatches userId p.from_location p.to_location) with
  | some _ =>
      updateFirst (historyMatches userId p.from_location p.to_location)
        (fun h => { h with
            search_count := h.search_count + 1,
            results_count := resultsCount,
            last_searched := some now }) histories
  | none =>
      let newRow : SearchHistoryRow :=
        { user_id := userId, from_location := p.from_location,
          to_location := p.to_location, from_lat := p.from_lat, from_lng := p.from_lng,
          to_lat := p.to_lat, to_lng := p.to_lng, search_count := 1,
          results_count := resultsCount, last_searched := some now, created_at := some now }
      histories ++ [newRow]

/-- Upsert of the PopularRoute row in analytics.log_search_analytics lines
43-65: increment, refresh and rescore a matching row, or insert a fresh row
with search count 1 and popularity score 1.0. -/
noncomputable def upsert_popular_route (now : ℚ) (routes : List PopularRouteRow)
    (p : SearchParams) : List PopularRouteRow :=
  match routes.find? (routeMatches p.from_location p.to_location) with
  | some _ =>
      updateFirst (routeMatches p.from_location p.to_location)
        (fun r => { r with
            search_count := r.search_count + 1,
            updated_at := some now,
            popularity_score := calculate_route_popularity_score (r.search_count + 1)
              r.ride_count (some (daysBetween now now)) }) routes
  | none =>
      let newRow : PopularRouteRow :=
        { from_location := p.from_location, to_location := p.to_location,
          from_lat := p.from_lat, from_lng := p.from_lng, to_lat := p.to_lat,
          to_lng := p.to_lng, search_count := 1, ride_count := 0, avg_price := none,
          popularity_score := 1, created_at := some now, updated_at := some now }
      routes ++ [newRow]

/-- Body of analytics.log_search_analytics inside the try block. The
database steps that can raise (the two queries and the commit) are numbered
0, 1, 2; the failAt oracle selects which of them, if any, raises. An early
return False on an empty location mutates nothing; session writes only take
effect at the commit, so a raise at any step leaves the committed state
untouched. -/
noncomputable def log_search_analytics_body (failAt : Option ℕ) (now : ℚ)
    (st : AnalyticsState) (userId : String) (p : SearchParams) (resultsCount : ℕ) :
    Except Unit (Bool × AnalyticsState) :=
  if p.from_location = "" ∨ p.to_location = "" then Except.ok (false, st)
  else if failAt = some 0 then Except.error ()
  else if failAt = some 1 then Except.error ()
  else if failAt = some 2 then Except.error ()
  else Except.ok (true,
    { histories := upsert_search_history now st.histories userId p resultsCount,
      routes := upsert_popular_route now st.routes p })

/-- Embedding of analytics.log_search_analytics: the catch-all except
clause rolls the session back to the incoming committed state and returns
False, so the function is total. -/
noncomputable def log_search_analytics (failAt : Option ℕ) (now : ℚ)
    (st : AnalyticsState) (userId : String) (p : SearchParams) (resultsCount : ℕ) :
    Bool × AnalyticsState :=
  match log_search_analytics_body failAt now st userId p resultsCount with
  | Except.ok r => r
  | Except.error _ => (false, st)

/-- Miles-to-km conversion of riders.advanced_search_rides lines 51-55: a
truthy max_distance (miles) is scaled by 1.609344, anything falsy gets the
25-mile default of 40.234 km. -/
def max_distance_km (p : SearchParams) : ℚ :=
  if pyTruthy p.max_distance then p.max_distance.getD 0 * 1.609344 else 40.234

/-- Distance post-filter of riders.advanced_search_rides lines 148-156:
when the origin coordinates and the km radius are truthy, keep exactly the
rides with truthy start coordinates whose haversine distance from the
origin is within the radius. -/
noncomputable def distance_filter (p : SearchParams) (rides : List Ride) : List Ride :=
  open Classical in
  if pyTruthy p.from_lat ∧ pyTruthy p.from_lng ∧ max_distance_km p ≠ 0 then
    rides.filter (fun r => decide (pyTruthy r.start_lat ∧ pyTruthy r.start_lng ∧
      haversine_distance (ratOpt p.from_lat) (ratOpt p.from_lng)
          (ratOpt r.start_lat) (ratOpt r.start_lng) ≤ ((max_distance_km p : ℝ) : EReal)))
  else rides

/-- Retention predicate of claim C2 in the specification's words: the ride
has both start coordinates and its haversine distance from the origin is at
most the max-distance converted from miles to km. -/
def spec_retained (p : SearchParams) (maxMiles : ℚ) (r : Ride) : Prop :=
  r.start_lat ≠ none ∧ r.start_lng ≠ none ∧
    haversine_distance (ratOpt p.from_lat) (ratOpt p.from_lng)
        (ratOpt r.start_lat) (ratOpt r.start_lng) ≤ (((maxMiles * 1.609344 : ℚ) : ℝ) : EReal)

/-- Concrete PopularRoute row used to instantiate the ride-stats update at
the specification's end-to-end scenario: ride count 1, average price 20. -/
def rowXY : PopularRouteRow :=
  { from_location := "X", to_location := "Y", from_lat := none, from_lng := none,
    to_lat := none, to_lng := none, search_count := 1, ride_count := 1,
    avg_price := some 20, popularity_score := 1, created_at := some 0,
    updated_at := some 0 }

/-- Concrete search parameters with both location texts set and no
coordinates. -/
def pAB : SearchParams :=
  { from_location := "A", to_location := "B", from_lat := none, from_lng := none,
    to_lat := none, to_lng := none, max_distance := none, max_price := none,
    weights := defaultWeights }

/-- Concrete search parameters with truthy origin coordinates and a truthy
max-distance of 10 miles. -/
def pW : SearchParams :=
  { from_location := "A", to_location := "B", from_lat := some 1, from_lng := some 1,
    to_lat := none, to_lng := none, max_distance := some 10, max_price := none,
    weights := defaultWeights }

theorem pyTruthy_ratOpt (o : Option ℚ) : pyTruthy (ratOpt o) ↔ pyTruthy o := by
  cases o with
  | none => simp [pyTruthy, ratOpt]
  | some q => simp [pyTruthy, ratOpt]

theorem haversineCore_symm (lat1 lon1 lat2 lon2 : ℝ) :
    haversineCore lat1 lon1 lat2 lon2 = haversineCore lat2 lon2 lat1 lon1 := by
  have hsin : ∀ u v : ℝ, Real.sin ((u - v) / 2) ^ 2 = Real.sin ((v - u) / 2) ^ 2 := by
    intro u v
    rw [show (u - v) / 2 = -((v - u) / 2) by ring, Real.sin_neg, neg_sq]
  unfold haversineCore
  rw [hsin (toRadians lat2) (toRadians lat1), hsin (toRadians lon2) (toRadians lon1),
    mul_comm (Real.cos (toRadians lat1)) (Real.cos (toRadians lat2))]

theorem haversineCore_self (lat lon : ℝ) : haversineCore lat lon lat lon = 0 := by
  unfold haversineCore
  simp

/-- Claim C3 (corrected, part kept): haversine_distance is symmetric in its
two coordinate pairs for all inputs, and equals 0 on a duplicated pair
whenever both coordinates of the pair are present and nonzero. -/
theorem haversine_symm_and_self :
    (∀ lat1 lon1 lat2 lon2 : Option ℝ,
        haversine_distance lat1 lon1 lat2 lon2 = haversine_distance lat2 lon2 lat1 lon1) ∧
    (∀ lat lon : Option ℝ, pyTruthy lat → pyTruthy lon →
        haversine_distance lat lon lat lon = 0) := by
  constructor
  · intro lat1 lon1 lat2 lon2
    unfold haversine_distance
    exact if_congr (by tauto) (by rw [haversineCore_symm]) rfl
  · intro lat lon hlat hlon
    unfold haversine_distance
    rw [if_pos ⟨hlat, hlon, hlat, hlon⟩, haversineCore_self]
    exact EReal.coe_zero

/-- Witness for claim C3's theorem at a concrete coordinate pair. -/
theorem haversine_symm_and_self_witness :
    haversine_distance (some 35.3) (some (-120.66)) (some 35.3) (some (-120.66)) = 0 :=
  haversine_symm_and_self.2 (some 35.3) (some (-120.66))
    (by norm_num [pyTruthy]) (by norm_num [pyTruthy])

/-- Counterexample to claim C3 as stated: the point (0, 10) lies on the
equator, yet haversine_distance from it to itself is infinity, not 0,
because the code treats the coordinate 0 as missing. -/
theorem haversine_self_zero_coordinate :
    haversine_distance (some 0) (some 10) (some 0) (some 10) ≠ 0 := by
  unfold haversine_distance
  rw [if_neg (by simp [pyTruthy])]
  exact EReal.top_ne_zero

/-- Claim C10: whenever any of the four coordinate arguments equals 0 (a
valid point on the equator or prime meridian), haversine_distance returns
infinity exactly as for a missing coordinate; consequently the result fails
every radius-filter comparison and the distance sub-score is 0. -/
theorem haversine_zero_coordinate_infinity
    (lat1 lon1 lat2 lon2 : Option ℝ)
    (h : lat1 = some 0 ∨ lon1 = some 0 ∨ lat2 = some 0 ∨ lon2 = some 0) :
    haversine_distance lat1 lon1 lat2 lon2 = ⊤ ∧
    (∀ maxKm : ℝ, ¬ haversine_distance lat1 lon1 lat2 lon2 ≤ (maxKm : EReal)) ∧
    distance_score (haversine_distance lat1 lon1 lat2 lon2) = 0 := by
  have htop : haversine_distance lat1 lon1 lat2 lon2 = ⊤ := by
    unfold haversine_distance
    rw [if_neg]
    rcases h with h | h | h | h <;> subst h <;> simp [pyTruthy]
  refine ⟨htop, ?_, ?_⟩
  · intro maxKm hle
    rw [htop, top_le_iff] at hle
    exact EReal.coe_ne_top maxKm hle
  · rw [htop]
    unfold distance_score
    rw [if_pos rfl]

theorem mergeSort_filter_key {α β : Type} [LinearOrder β] [DecidableEq β]
    (le : α → α → Bool) (k : α → β)
    (htrans : ∀ a b c, le a b = true → le b c = true → le a c = true)
    (htotal : ∀ a b, le a b = true ∨ le b a = true)
    (hkey : ∀ a b, k a = k b → le a b = true)
    (l : List α) (v : β) :
    (l.mergeSort le).filter (fun x => decide (k x = v)) =
      l.filter (fun x => decide (k x = v)) := by
  have hmem : ∀ x ∈ l.filter (fun x => decide (k x = v)), k x = v := by
    intro x hx
    exact of_decide_eq_true (List.mem_filter.mp hx).2
  have hpair : (l.filter (fun x => decide (k x = v))).Pairwise (fun a b => le a b) := by
    apply List.pairwise_of_forall_mem_list
    intro a ha b hb
    exact hkey a b ((hmem a ha).trans (hmem b hb).symm)
  have h1 : List.Sublist (l.filter (fun x => decide (k x = v))) (l.mergeSort le) :=
    List.sublist_mergeSort htrans
      (fun a b => by rcases htotal a b with h | h <;> simp [h])
      hpair (List.filter_sublist l)
  have h2 : ((l.mergeSort le).filter (fun x => decide (k x = v))).Perm
      (l.filter (fun x => decide (k x = v))) :=
    (List.mergeSort_perm l le).filter _
  have hself : (l.filter (fun x => decide (k x = v))).filter
      (fun x => decide (k x = v)) = l.filter (fun x => decide (k x = v)) :=
    List.filter_eq_self.mpr (fun a ha => decide_eq_true (hmem a ha))
  have h3 : List.Sublist (l.filter (fun x => decide (k x = v)))
      ((l.mergeSort le).filter (fun x => decide (k x = v))) :=
    hself ▸ h1.filter (fun x => decide (k x = v))
  exact (h3.eq_of_length h2.length_eq.symm).symm

theorem hasOriginLat_some (p : SearchParams) :
    hasOriginLat (some p) = pyTruthy p.from_lat := rfl

theorem stable_sort_pack_asc (k : Candidate → ℚ) (l : List Candidate) :
    (l.mergeSort (fun a b => decide (k a ≤ k b))).Perm l ∧
    (l.mergeSort (fun a b => decide (k a ≤ k b))).length = l.length ∧
    ∀ v : WithTop ℚ,
      (l.mergeSort (fun a b => decide (k a ≤ k b))).filter (fun c => decide ((k c : WithTop ℚ) = v)) =
        l.filter (fun c => decide ((k c : WithTop ℚ) = v)) := by
  refine ⟨List.mergeSort_perm l _, (List.mergeSort_perm l _).length_eq, fun v => ?_⟩
  apply mergeSort_filter_key _ (fun c => (k c : WithTop ℚ))
  · intro a b c hab hbc
    simp only [decide_eq_true_eq] at hab hbc ⊢
    exact le_trans hab hbc
  · intro a b
    simp only [decide_eq_true_eq]
    exact le_total _ _
  · intro a b h
    have : k a = k b := WithTop.coe_eq_coe.mp h
    simp [this]

theorem stable_sort_pack_desc (k : Candidate → ℚ) (l : List Candidate) :
    (l.mergeSort (fun a b => decide (k b ≤ k a))).Perm l ∧
    (l.mergeSort (fun a b => decide (k b ≤ k a))).length = l.length ∧
    ∀ v : WithTop ℚ,
      (l.mergeSort (fun a b => decide (k b ≤ k a))).filter (fun c => decide ((k c : WithTop ℚ) = v)) =
        l.filter (fun c => decide ((k c : WithTop ℚ) = v)) := by
  refine ⟨List.mergeSort_perm l _, (List.mergeSort_perm l _).length_eq, fun v => ?_⟩
  apply mergeSort_filter_key _ (fun c => (k c : WithTop ℚ))
  · intro a b c hab hbc
    simp only [decide_eq_true_eq] at hab hbc ⊢
    exact le_trans hbc hab
  · intro a b
    simp only [decide_eq_true_eq]
    exact le_total _ _
  · intro a b h
    have : k a = k b := WithTop.coe_eq_coe.mp h
    simp [this]

theorem sort_ok_branch {l : List Candidate} {sortBy : String} {params : Option SearchParams}
    {le : Candidate → Candidate → Bool} {k : Candidate → WithTop ℚ}
    (hpack : (l.mergeSort le).Perm l ∧ (l.mergeSort le).length = l.length ∧
      ∀ v : WithTop ℚ, (l.mergeSort le).filter (fun c => decide (k c = v)) =
        l.filter (fun c => decide (k c = v)))
    (hs : sort_rides_by_criteria l sortBy params = Except.ok (l.mergeSort le))
    (hk : ∀ c, ride_sort_key sortBy params c = k c)
    (hno : ¬ (sortBy = "distance" ∧ hasOriginLat params ∧ 2 ≤ l.length ∧
      ∃ c ∈ l, c.distance = none)) :
    (∀ out, sort_rides_by_criteria l sortBy params = Except.ok out →
      out.Perm l ∧ out.length = l.length ∧
      ∀ v : WithTop ℚ,
        out.filter (fun c => decide (ride_sort_key sortBy params c = v)) =
          l.filter (fun c => decide (ride_sort_key sortBy params c = v))) ∧
    (sort_rides_by_criteria l sortBy params = Except.error () ↔
      (sortBy = "distance" ∧ hasOriginLat params ∧ 2 ≤ l.length ∧
        ∃ c ∈ l, c.distance = none)) := by
  constructor
  · intro out hout
    rw [hs] at hout
    cases Except.ok.inj hout
    refine ⟨hpack.1, hpack.2.1, fun v => ?_⟩
    simp only [hk]
    exact hpack.2.2 v
  · rw [hs]
    constructor
    · intro he
      exact Except.noConfusion he
    · intro hr
      exact absurd hr hno

/-- Counterexample to claim C1 as stated: sort_by distance with a truthy
origin latitude and a falsy origin longitude takes the distance branch with
every candidate's distance entry still None, and Python's sorted raises
TypeError on the first key comparison instead of returning a permutation;
the embedding yields the error outcome, not a sorted list. -/
theorem sort_rides_distance_none_raises :
    sort_rides_by_criteria [cNone, cNone] "distance" (some pD) = Except.error () := by
  have hguard : "distance" = "distance" ∧ hasOriginLat (some pD) :=
    ⟨rfl, by rw [hasOriginLat_some]; norm_num [pD, pyTruthy]⟩
  have herr : 2 ≤ ([cNone, cNone] : List Candidate).length ∧
      ∃ c ∈ ([cNone, cNone] : List Candidate), c.distance = none :=
    ⟨by decide, cNone, by simp, rfl⟩
  unfold sort_rides_by_criteria
  rw [if_neg (by decide : ¬ ("distance" = "relevance")), if_pos hguard, if_pos herr]

/-- Claim C1 (corrected): whenever sort_rides_by_criteria returns a list,
that list is a permutation of the input of equal length and candidates with
equal sort keys keep their relative input order; and the only inputs on
which it instead raises are those of the distance strategy with a truthy
origin latitude where at least two candidates are present and some
candidate has no computed distance. -/
theorem sort_rides_perm_length_stable (l : List Candidate) (sortBy : String)
    (params : Option SearchParams) :
    (∀ out, sort_rides_by_criteria l sortBy params = Except.ok out →
      out.Perm l ∧ out.length = l.length ∧
      ∀ v : WithTop ℚ,
        out.filter (fun c => decide (ride_sort_key sortBy params c = v)) =
          l.filter (fun c => decide (ride_sort_key sortBy params c = v))) ∧
    (sort_rides_by_criteria l sortBy params = Except.error () ↔
      (sortBy = "distance" ∧ hasOriginLat params ∧ 2 ≤ l.length ∧
        ∃ c ∈ l, c.distance = none)) := by
  by_cases h1 : sortBy = "relevance"
  · exact sort_ok_branch (stable_sort_pack_desc (fun c => c.relevance_score) l)
      (by unfold sort_rides_by_criteria; rw [if_pos h1])
      (fun c => by unfold ride_sort_key; rw [if_pos h1])
      (by rintro ⟨hd, -⟩; rw [h1] at hd; exact absurd hd (by decide))
  by_cases h2 : sortBy = "distance" ∧ hasOriginLat params
  · by_cases herr : 2 ≤ l.length ∧ ∃ c ∈ l, c.distance = none
    · have hs : sort_rides_by_criteria l sortBy params = Except.error () := by
        unfold sort_rides_by_criteria
        rw [if_neg h1, if_pos h2, if_pos herr]
      constructor
      · intro out hout
        rw [hs] at hout
        exact Except.noConfusion hout
      · rw [hs]
        exact ⟨fun _ => ⟨h2.1, h2.2, herr.1, herr.2⟩, fun _ => rfl⟩
    · exact sort_ok_branch (stable_sort_pack_asc (fun c => c.distance.getD 0) l)
        (by unfold sort_rides_by_criteria; rw [if_neg h1, if_pos h2, if_neg herr])
        (fun c => by unfold ride_sort_key; rw [if_neg h1, if_pos h2])
        (fun hr => herr ⟨hr.2.2.1, hr.2.2.2⟩)
  by_cases h3 : sortBy = "price"
  · exact sort_ok_branch (stable_sort_pack_asc (fun c => c.ride.price_per_seat) l)
      (by unfold sort_rides_by_criteria; rw [if_neg h1, if_neg h2, if_pos h3])
      (fun c => by unfold ride_sort_key; rw [if_neg h1, if_neg h2, if_pos h3])
      (fun hr => h2 ⟨hr.1, hr.2.1⟩)
  by_cases h4 : sortBy = "departure_time"
  · exact sort_ok_branch (stable_sort_pack_asc (fun c => c.ride.departure_time) l)
      (by unfold sort_rides_by_criteria; rw [if_neg h1, if_neg h2, if_neg h3, if_pos h4])
      (fun c => by unfold ride_sort_key; rw [if_neg h1, if_neg h2, if_neg h3, if_pos h4])
      (fun hr => h2 ⟨hr.1, hr.2.1⟩)
  by_cases h5 : sortBy = "popularity"
  · exact sort_ok_branch (stable_sort_pack_desc (fun c => c.ride.popularity_score) l)
      (by unfold sort_rides_by_criteria; rw [if_neg h1, if_neg h2, if_neg h3, if_neg h4, if_pos h5])
      (fun c => by unfold ride_sort_key; rw [if_neg h1, if_neg h2, if_neg h3, if_neg h4, if_pos h5])
      (fun hr => h2 ⟨hr.1, hr.2.1⟩)
  by_cases h6 : sortBy = "driver_rating"
  · exact sort_ok_branch (stable_sort_pack_desc driver_rating_key l)
      (by unfold sort_rides_by_criteria
          rw [if_neg h1, if_neg h2, if_neg h3, if_neg h4, if_neg h5, if_pos h6])
      (fun c => by unfold ride_sort_key
                   rw [if_neg h1, if_neg h2, if_neg h3, if_neg h4, if_neg h5, if_pos h6])
      (fun hr => h2 ⟨hr.1, hr.2.1⟩)
  · exact sort_ok_branch (stable_sort_pack_desc (fun c => c.relevance_score) l)
      (by unfold sort_rides_by_criteria
          rw [if_neg h1, if_neg h2, if_neg h3, if_neg h4, if_neg h5, if_neg h6])
      (fun c => by unfold ride_sort_key
                   rw [if_neg h1, if_neg h2, if_neg h3, if_neg h4, if_neg h5, if_neg h6])
      (fun hr => h2 ⟨hr.1, hr.2.1⟩)

/-- Witness for claim C1's theorem: the relevance sort of the empty
candidate list succeeds and its conclusion holds there. -/
theorem sort_rides_perm_length_stable_witness :
    ([] : List Candidate).Perm [] ∧ ([] : List Candidate).length = ([] : List Candidate).length ∧
      ∀ v : WithTop ℚ,
        ([] : List Candidate).filter (fun c => decide (ride_sort_key "relevance" none c = v)) =
          ([] : List Candidate).filter (fun c => decide (ride_sort_key "relevance" none c = v)) :=
  (sort_rides_perm_length_stable [] "relevance" none).1 []
    (by simp [sort_rides_by_criteria])

/-- Claim C4: sorting with an unknown strategy name, or with the distance
strategy when the search parameters supply no truthy origin latitude,
produces exactly the ordering of the relevance strategy; neither case is an
error. -/
theorem sort_fallback_to_relevance (l : List Candidate) (params : Option SearchParams) :
    (∀ sortBy : String, sortBy ≠ "relevance" → sortBy ≠ "distance" → sortBy ≠ "price" →
        sortBy ≠ "departure_time" → sortBy ≠ "popularity" → sortBy ≠ "driver_rating" →
        sort_rides_by_criteria l sortBy params = sort_rides_by_criteria l "relevance" params) ∧
    (¬ hasOriginLat params →
        sort_rides_by_criteria l "distance" params = sort_rides_by_criteria l "relevance" params) := by
  constructor
  · intro sortBy hs1 hs2 hs3 hs4 hs5 hs6
    unfold sort_rides_by_criteria
    rw [if_neg hs1, if_neg (fun hc => hs2 hc.1), if_neg hs3, if_neg hs4, if_neg hs5,
      if_neg hs6, if_pos rfl]
  · intro h
    unfold sort_rides_by_criteria
    rw [if_neg (by decide), if_neg (fun hc => h hc.2), if_neg (by decide),
      if_neg (by decide), if_neg (by decide), if_neg (by decide), if_pos rfl]

/-- Witness for claim C4's theorem: an unknown strategy name and the
distance strategy without origin coordinates both coincide with relevance
ordering on a concrete input. -/
theorem sort_fallback_to_relevance_witness :
    sort_rides_by_criteria [] "foo" none = sort_rides_by_criteria [] "relevance" none ∧
    sort_rides_by_criteria [] "distance" none = sort_rides_by_criteria [] "relevance" none :=
  ⟨(sort_fallback_to_relevance [] none).1 "foo" (by decide) (by decide) (by decide)
      (by decide) (by decide) (by decide),
    (sort_fallback_to_relevance [] none).2 (fun h => h)⟩

/-- Counterexample to claim C9 as stated: a stored popularity of -50 with
the default popularity weight contributes -15, not the 0 that clamping to
the interval 0..100 would give. -/
theorem popularity_component_not_lower_clamped :
    popularity_component (-50) (3/10) ≠ popularity_component_spec (-50) (3/10) := by
  norm_num [popularity_component, popularity_component_spec, min_def, max_def]

/-- Claim C9 (corrected): in calculate_ride_relevance the popularity
contribution equals the stored popularity clamped from above by 100, times
the popularity weight; there is no lower clamp, so negative stored values
contribute negatively. -/
theorem popularity_component_upper_clamp_only (p w : ℚ) :
    popularity_component p w = min p 100 * w := by
  unfold popularity_component
  rcases le_total p 100 with h | h
  · rw [min_eq_left ((div_le_one (by norm_num)).mpr h), min_eq_left h,
      div_mul_cancel₀ p (by norm_num : (100 : ℚ) ≠ 0)]
  · rw [min_eq_right ((one_le_div (by norm_num)).mpr h), min_eq_right h]
    ring

theorem route_recency_component_none : route_recency_component none = 0 := rfl

theorem route_recency_component_some (d : ℤ) :
    route_recency_component (some d) = if d ≤ 7 then max 0 (10 - (d : ℝ) * 1.4) else 0 := rfl

theorem round2_mono {x y : ℝ} (h : x ≤ y) : round2 x ≤ round2 y := by
  unfold round2
  have hr : round (x * 100) ≤ round (y * 100) := by
    rw [round_eq, round_eq]
    exact Int.floor_mono (by linarith)
  have : ((round (x * 100) : ℤ) : ℝ) ≤ ((round (y * 100) : ℤ) : ℝ) :=
    Int.cast_le.mpr hr
  linarith

theorem round2_le_100 {x : ℝ} (h : x ≤ 100) : round2 x ≤ 100 := by
  have h100 : round2 (100 : ℝ) = 100 := by
    unfold round2
    rw [show ((100 : ℝ) * 100) = ((10000 : ℤ) : ℝ) by norm_num, round_intCast]
    norm_num
  calc round2 x ≤ round2 100 := round2_mono h
    _ = 100 := h100

/-- Claim C5: the route popularity score is monotonically non-decreasing in
the search count with ride count and update recency held fixed, the
search-volume component never exceeds 60, the ride-count component never
exceeds 30, the recency bonus never exceeds 10, and the total never
exceeds 100. -/
theorem route_popularity_monotone_and_bounded
    (sc1 sc2 rideCount : ℕ) (daysSinceUpdate : Option ℤ)
    (hsc : sc1 ≤ sc2) (hd : ∀ d, daysSinceUpdate = some d → 0 ≤ d) :
    calculate_route_popularity_score sc1 rideCount daysSinceUpdate ≤
        calculate_route_popularity_score sc2 rideCount daysSinceUpdate ∧
    search_volume_component sc2 ≤ 60 ∧
    ride_count_component rideCount ≤ 30 ∧
    route_recency_component daysSinceUpdate ≤ 10 ∧
    calculate_route_popularity_score sc2 rideCount daysSinceUpdate ≤ 100 := by
  have hsv : search_volume_component sc1 ≤ search_volume_component sc2 := by
    unfold search_volume_component
    refine min_le_min (mul_le_mul_of_nonneg_right ?_ (by norm_num)) le_rfl
    refine Real.logb_le_logb_of_le (by norm_num) (by positivity) ?_
    have : (sc1 : ℝ) ≤ sc2 := Nat.cast_le.mpr hsc
    linarith
  have hrec10 : route_recency_component daysSinceUpdate ≤ 10 := by
    cases daysSinceUpdate with
    | none => rw [route_recency_component_none]; norm_num
    | some d =>
        have hd0 : (0 : ℝ) ≤ (d : ℝ) := by exact_mod_cast hd d rfl
        rw [route_recency_component_some]
        by_cases h7 : d ≤ 7
        · rw [if_pos h7]
          refine max_le (by norm_num) (by nlinarith)
        · rw [if_neg h7]
          norm_num
  have hsv60 : search_volume_component sc2 ≤ 60 := min_le_right _ _
  have hrc30 : ride_count_component rideCount ≤ 30 := min_le_right _ _
  refine ⟨round2_mono (by linarith), hsv60, hrc30, hrec10, round2_le_100 (by linarith)⟩

/-- Witness for claim C5's theorem at concrete counts and recency. -/
theorem route_popularity_monotone_and_bounded_witness :
    calculate_route_popularity_score 3 2 (some 1) ≤
        calculate_route_popularity_score 5 2 (some 1) ∧
    search_volume_component 5 ≤ 60 ∧
    ride_count_component 2 ≤ 30 ∧
    route_recency_component (some 1) ≤ 10 ∧
    calculate_route_popularity_score 5 2 (some 1) ≤ 100 :=
  route_popularity_monotone_and_bounded 3 5 2 (some 1) (by decide)
    (fun d h => by cases h; decide)

/-- Counterexample to claim C7 as stated: five days after the last update
the code awards max(0, 10 - 5 * 1.4) = 3 points, not the
max(0, 10 * (1 - 5/7)) = 20/7 points of a linear decay over 7 days. -/
theorem route_recency_not_linear_over_week :
    route_recency_component (some 5) ≠ max 0 (10 * (1 - 5 / 7)) := by
  rw [route_recency_component_some, if_pos (by decide)]
  rw [max_eq_right (by norm_num), max_eq_right (by norm_num)]
  norm_num

/-- Claim C7 (corrected): the recency contribution decays linearly at 1.4
(= 7/5) points per day, floored at 0, for at most 7 days since update, and
is 0 beyond 7 days; it is nonnegative and, for a nonnegative day count, at
most 10. -/
theorem route_recency_component_formula (d : ℤ) :
    (d ≤ 7 → route_recency_component (some d) = max 0 (10 - (7 / 5 : ℝ) * d)) ∧
    (7 < d → route_recency_component (some d) = 0) ∧
    0 ≤ route_recency_component (some d) ∧
    (0 ≤ d → route_recency_component (some d) ≤ 10) := by
  refine ⟨?_, ?_, ?_, ?_⟩
  · intro h
    rw [route_recency_component_some, if_pos h]
    norm_num
    ring_nf
  · intro h
    rw [route_recency_component_some, if_neg (not_le.mpr h)]
  · rw [route_recency_component_some]
    by_cases h7 : d ≤ 7
    · rw [if_pos h7]
      exact le_max_left _ _
    · rw [if_neg h7]
  · intro h
    rw [route_recency_component_some]
    have hd0 : (0 : ℝ) ≤ (d : ℝ) := by exact_mod_cast h
    by_cases h7 : d ≤ 7
    · rw [if_pos h7]
      exact max_le (by norm_num) (by nlinarith)
    · rw [if_neg h7]
      norm_num

/-- Witness for claim C7's theorem at concrete day counts. -/
theorem route_recency_component_formula_witness :
    route_recency_component (some 3) = max 0 (10 - (7 / 5 : ℝ) * ((3 : ℤ) : ℝ)) ∧
    route_recency_component (some 8) = 0 :=
  ⟨(route_recency_component_formula 3).1 (by decide),
    (route_recency_component_formula 8).2.1 (by decide)⟩

theorem pyTruthy_ne_none {α : Type} [Zero α] {o : Option α} (h : pyTruthy o) :
    o ≠ none := by
  intro he
  subst he
  exact h rfl

theorem haversine_distance_top_of_fail {lat1 lon1 lat2 lon2 : Option ℝ}
    (h : ¬ (pyTruthy lat1 ∧ pyTruthy lon1 ∧ pyTruthy lat2 ∧ pyTruthy lon2)) :
    haversine_distance lat1 lon1 lat2 lon2 = ⊤ := by
  unfold haversine_distance
  rw [if_neg h]

theorem find?_updateFirst {α : Type} (p : α → Bool) (f : α → α)
    (hp : ∀ x, p (f x) = p x) (l : List α) (a : α) (h : l.find? p = some a) :
    (updateFirst p f l).find? p = some (f a) := by
  induction l with
  | nil => simp at h
  | cons x xs ih =>
      by_cases px : p x = true
      · rw [List.find?_cons_of_pos _ px] at h
        cases h
        unfold updateFirst
        rw [if_pos px]
        exact List.find?_cons_of_pos _ (by rw [hp]; exact px)
      · rw [List.find?_cons_of_neg _ px] at h
        unfold updateFirst
        rw [if_neg px, List.find?_cons_of_neg _ px]
        exact ih h

/-- Counterexample to claim C6 as stated: posting a ride on a route with no
existing PopularRoute row performs no upsert — the table stays empty and
the function returns None. -/
theorem update_route_ride_stats_missing_row_no_insert :
    update_route_ride_stats [] "X" "Y" 30 0 = (none, []) := rfl

/-- Claim C6 (corrected): when a PopularRoute row for the route exists with
a truthy average price, update_route_ride_stats returns True, increments
its ride count, and sets the running average to
(oldAvg * (n-1) + newPrice) / n for n the incremented count; when no row
exists, the call returns None and leaves the table unchanged, creating
nothing. -/
theorem update_route_ride_stats_spec (fromLoc toLoc : String) (pricePerSeat now : ℚ) :
    (∀ routes row, routes.find? (routeMatches fromLoc toLoc) = some row →
      pyTruthy row.avg_price →
      (update_route_ride_stats routes fromLoc toLoc pricePerSeat now).1 = some true ∧
      ∃ r2, (update_route_ride_stats routes fromLoc toLoc pricePerSeat now).2.find?
            (routeMatches fromLoc toLoc) = some r2 ∧
        r2.ride_count = row.ride_count + 1 ∧
        r2.avg_price = some ((row.avg_price.getD 0 * (row.ride_count : ℚ) + pricePerSeat) /
          ((row.ride_count : ℚ) + 1)) ∧
        r2.updated_at = some now) ∧
    (∀ routes, routes.find? (routeMatches fromLoc toLoc) = none →
      update_route_ride_stats routes fromLoc toLoc pricePerSeat now = (none, routes)) := by
  constructor
  · intro routes row hfind havg
    have heq : update_route_ride_stats routes fromLoc toLoc pricePerSeat now =
        (some true,
          updateFirst (routeMatches fromLoc toLoc) (applyRideStats pricePerSeat now) routes) := by
      unfold update_route_ride_stats
      rw [hfind]
    rw [heq]
    refine ⟨rfl, applyRideStats pricePerSeat now row,
      find?_updateFirst (routeMatches fromLoc toLoc) (applyRideStats pricePerSeat now)
        (fun x => rfl) routes row hfind, rfl, ?_, rfl⟩
    show some (if pyTruthy row.avg_price then
        (row.avg_price.getD 0 * ((row.ride_count : ℚ) + 1 - 1) + pricePerSeat) /
          ((row.ride_count : ℚ) + 1)
      else pricePerSeat) = _
    rw [if_pos havg]
    norm_num
  · intro routes hnone
    unfold update_route_ride_stats
    rw [hnone]

/-- Witness for claim C6's theorem at the specification's scenario: a row
with ride count 1 and average price 20 receives a posting at price 30 and
ends with ride count 2 and average price 25. -/
theorem update_route_ride_stats_spec_witness :
    (update_route_ride_stats [rowXY] "X" "Y" 30 0).1 = some true ∧
    ∃ r2, (update_route_ride_stats [rowXY] "X" "Y" 30 0).2.find?
        (routeMatches "X" "Y") = some r2 ∧
      r2.ride_count = 2 ∧ r2.avg_price = some 25 := by
  obtain ⟨h1, r2, hf, hrc, havg2, _⟩ :=
    (update_route_ride_stats_spec "X" "Y" 30 0).1 [rowXY] rowXY rfl
      (by norm_num [rowXY, pyTruthy])
  refine ⟨h1, r2, hf, ?_, ?_⟩
  · rw [hrc]
    rfl
  · rw [havg2]
    norm_num [rowXY]

/-- Claim C8: log_search_analytics is a total function — every outcome is
either a rollback that returns False with the committed analytics state
unchanged, or a successful commit of the two upserts returning True — and
a raise at any of the fallible steps yields exactly the rollback
outcome. The search results, which the function only receives as a count,
are untouched in every case. -/
theorem log_search_analytics_total_rollback
    (failAt : Option ℕ) (now : ℚ) (st : AnalyticsState) (userId : String)
    (p : SearchParams) (resultsCount : ℕ) :
    (log_search_analytics failAt now st userId p resultsCount = (false, st) ∨
     log_search_analytics failAt now st userId p resultsCount =
       (true, { histories := upsert_search_history now st.histories userId p resultsCount,
                routes := upsert_popular_route now st.routes p })) ∧
    (∀ k : ℕ, failAt = some k → k < 3 →
        log_search_analytics failAt now st userId p resultsCount = (false, st)) := by
  unfold log_search_analytics log_search_analytics_body
  by_cases h0 : p.from_location = "" ∨ p.to_location = ""
  · rw [if_pos h0]
    exact ⟨Or.inl rfl, fun k _ _ => rfl⟩
  · rw [if_neg h0]
    by_cases f0 : failAt = some 0
    · rw [if_pos f0]
      exact ⟨Or.inl rfl, fun k _ _ => rfl⟩
    · rw [if_neg f0]
      by_cases f1 : failAt = some 1
      · rw [if_pos f1]
        exact ⟨Or.inl rfl, fun k _ _ => rfl⟩
      · rw [if_neg f1]
        by_cases f2 : failAt = some 2
        · rw [if_pos f2]
          exact ⟨Or.inl rfl, fun k _ _ => rfl⟩
        · rw [if_neg f2]
          refine ⟨Or.inr rfl, fun k hk hk3 => absurd hk ?_⟩
          have k0 : k ≠ 0 := fun h => f0 (by rw [hk, h])
          have k1 : k ≠ 1 := fun h => f1 (by rw [hk, h])
          have k2 : k ≠ 2 := fun h => f2 (by rw [hk, h])
          omega

/-- Witness for claim C8's theorem: a raise at the PopularRoute query step
returns False and leaves the empty analytics state unchanged. -/
theorem log_search_analytics_total_rollback_witness :
    log_search_analytics (some 1) 0 ⟨[], []⟩ "u" pAB 5 = (false, ⟨[], []⟩) :=
  (log_search_analytics_total_rollback (some 1) 0 ⟨[], []⟩ "u" pAB 5).2 1 rfl
    (by decide)

theorem max_distance_km_ne_zero (p : SearchParams) : max_distance_km p ≠ 0 := by
  unfold max_distance_km
  by_cases h : pyTruthy p.max_distance
  · rw [if_pos h]
    exact mul_ne_zero h (by norm_num)
  · rw [if_neg h]
    norm_num

theorem spec_retained_iff (p : SearchParams) (r : Ride) (hm : pyTruthy p.max_distance) :
    (pyTruthy r.start_lat ∧ pyTruthy r.start_lng ∧
      haversine_distance (ratOpt p.from_lat) (ratOpt p.from_lng)
          (ratOpt r.start_lat) (ratOpt r.start_lng) ≤ ((max_distance_km p : ℝ) : EReal)) ↔
    spec_retained p (p.max_distance.getD 0) r := by
  have hbound : max_distance_km p = p.max_distance.getD 0 * 1.609344 := by
    unfold max_distance_km
    rw [if_pos hm]
  unfold spec_retained
  rw [hbound]
  constructor
  · rintro ⟨h1, h2, h3⟩
    exact ⟨pyTruthy_ne_none h1, pyTruthy_ne_none h2, h3⟩
  · rintro ⟨n1, n2, h3⟩
    by_cases h1 : pyTruthy r.start_lat
    · by_cases h2 : pyTruthy r.start_lng
      · exact ⟨h1, h2, h3⟩
      · exfalso
        rw [haversine_distance_top_of_fail
          (fun hall => h2 ((pyTruthy_ratOpt r.start_lng).mp hall.2.2.2)), top_le_iff] at h3
        exact EReal.coe_ne_top _ h3
    · exfalso
      rw [haversine_distance_top_of_fail
        (fun hall => h1 ((pyTruthy_ratOpt r.start_lat).mp hall.2.2.1)), top_le_iff] at h3
      exact EReal.coe_ne_top _ h3

open Classical in
/-- Claim C2: with truthy origin coordinates and a truthy max-distance of m
miles, the distance post-filter of advanced search retains exactly the
rides that have both start coordinates and lie within m * 1.609344 km of
the origin; a ride missing a start coordinate is never retained by the
active filter; and without origin coordinates the filter excludes
nothing. -/
theorem advanced_search_distance_filter_spec (p : SearchParams) (rides : List Ride) :
    (pyTruthy p.from_lat → pyTruthy p.from_lng → pyTruthy p.max_distance →
      distance_filter p rides =
        rides.filter (fun r => decide (spec_retained p (p.max_distance.getD 0) r))) ∧
    (∀ r : Ride, (r.start_lat = none ∨ r.start_lng = none) →
      pyTruthy p.from_lat → pyTruthy p.from_lng →
      r ∉ distance_filter p rides) ∧
    (¬ (pyTruthy p.from_lat ∧ pyTruthy p.from_lng) → distance_filter p rides = rides) := by
  refine ⟨?_, ?_, ?_⟩
  · intro h1 h2 hm
    unfold distance_filter
    rw [if_pos ⟨h1, h2, max_distance_km_ne_zero p⟩]
    apply List.filter_congr
    intro r _
    exact decide_eq_decide.mpr (spec_retained_iff p r hm)
  · intro r hmiss h1 h2 hmem
    unfold distance_filter at hmem
    rw [if_pos ⟨h1, h2, max_distance_km_ne_zero p⟩] at hmem
    have hp := of_decide_eq_true (List.mem_filter.mp hmem).2
    rcases hmiss with hm | hm
    · exact pyTruthy_ne_none hp.1 hm
    · exact pyTruthy_ne_none hp.2.1 hm
  · intro h
    unfold distance_filter
    rw [if_neg (fun hc => h ⟨hc.1, hc.2.1⟩)]

/-- Witness for claim C2's theorem at concrete truthy parameters. -/
theorem advanced_search_distance_filter_spec_witness :
    distance_filter pW [] = [] :=
  ((advanced_search_distance_filter_spec pW []).1 (by norm_num [pW, pyTruthy])
    (by norm_num [pW, pyTruthy]) (by norm_num [pW, pyTruthy])).trans rfl

/-- Witness for claim C10's theorem at a concrete input with a zero
latitude. -/
theorem haversine_zero_coordinate_infinity_witness :
    haversine_distance (some 0) (some 10) (some 35.3) (some (-120.66)) = ⊤ ∧
    (∀ maxKm : ℝ, ¬ haversine_distance (some 0) (some 10) (some 35.3) (some (-120.66)) ≤ (maxKm : EReal)) ∧
    distance_score (haversine_distance (some 0) (some 10) (some 35.3) (some (-120.66))) = 0 :=
  haversine_zero_coordinate_infinity (some 0) (some 10) (some 35.3) (some (-120.66))
    (Or.inl rfl)

end Hopin
